import Mathlib

/-!
Verification development for the search-service fallback gateway.

The definitions below are a shallow embedding of the JavaScript sources:
the fallback search logic and health check of the search service module,
the express-validator chains and the validate middleware, the search and
health controllers, the global error handler, and the express route
mounting of the application entry point.  Asynchronous engine calls are
modelled as pure functions from the call arguments to an Except value
(error = the promise rejecting / an exception being thrown), and a run of
the service is the resulting value together with the list of engine calls
that were issued.  JavaScript falsiness of numbers (0 and undefined are
falsy) is modelled explicitly where the source uses the or-else idiom.
-/

namespace SearchSvc

/-- Configuration read once at startup: GLOBAL_INDEX (default
colmado_inventory) and LOCAL_INDEX_PREFIX (default productos_colmado_). -/
structure Config where
  globalIndex : String
  localIndexPref : String
deriving DecidableEq, Repr

/-- The default configuration values from the source. -/
def defaultConfig : Config :=
  { globalIndex := "colmado_inventory", localIndexPref := "productos_colmado_" }

/-- The shape of a successful engine search response: hits, the optional
estimatedTotalHits field, and processingTimeMs. -/
structure EngineResponse (Hit : Type) where
  hits : List Hit
  estimatedTotalHits : Option Nat
  processingTimeMs : Nat
deriving DecidableEq, Repr

/-- One outbound engine search call: index name, query, limit, offset. -/
structure EngineCall (P : Type) where
  index : String
  query : String
  limit : P
  offset : P
deriving DecidableEq, Repr

/-- The engine as seen by the service: a function from the call arguments
(index name, query, limit, offset) to a response or a thrown error. -/
def Engine (Hit Err P : Type) : Type :=
  String → String → P → P → Except Err (EngineResponse Hit)

/-- The result envelope built by searchWithFallback. -/
structure SearchResult (Hit P : Type) where
  source : String
  indexName : String
  hits : List Hit
  total : Nat
  query : String
  limit : P
  offset : P
  processingTimeMs : Nat
deriving DecidableEq, Repr

/-- The JavaScript expression r.estimatedTotalHits plus or-else
r.hits.length: a missing field is undefined (falsy) and the number 0 is
also falsy, so both fall back to the length of the hits array. -/
def jsOrTotal {Hit : Type} (r : EngineResponse Hit) : Nat :=
  match r.estimatedTotalHits with
  | some n => if n = 0 then r.hits.length else n
  | none => r.hits.length

/-- Step 2 of searchWithFallback: the fallback search on the global index,
building the global result envelope; any failure propagates. -/
def globalStep {Hit Err P : Type} (cfg : Config) (engine : Engine Hit Err P)
    (query : String) (limit offset : P) : Except Err (SearchResult Hit P) :=
  match engine cfg.globalIndex query limit offset with
  | .error e => .error e
  | .ok g =>
      .ok { source := "global", indexName := cfg.globalIndex, hits := g.hits,
            total := jsOrTotal g, query := query, limit := limit,
            offset := offset, processingTimeMs := g.processingTimeMs }

/-- searchWithFallback from the search service module.  The inner
try/catch swallows every local-index failure and falls through to the
global step; the outer try/catch only logs and rethrows, so it is the
identity on outcomes.  The second component records the engine calls
issued, in order. -/
def searchWithFallback {Hit Err P : Type} (cfg : Config) (engine : Engine Hit Err P)
    (query slug : String) (limit offset : P) :
    Except Err (SearchResult Hit P) × List (EngineCall P) :=
  match engine (cfg.localIndexPref ++ slug) query limit offset with
  | .error _ =>
      (globalStep cfg engine query limit offset,
       [{ index := cfg.localIndexPref ++ slug, query := query, limit := limit, offset := offset },
        { index := cfg.globalIndex, query := query, limit := limit, offset := offset }])
  | .ok l =>
      if 0 < l.hits.length then
        (.ok { source := "local", indexName := cfg.localIndexPref ++ slug,
               hits := l.hits, total := jsOrTotal l, query := query,
               limit := limit, offset := offset,
               processingTimeMs := l.processingTimeMs },
         [{ index := cfg.localIndexPref ++ slug, query := query, limit := limit, offset := offset }])
      else
        (globalStep cfg engine query limit offset,
         [{ index := cfg.localIndexPref ++ slug, query := query, limit := limit, offset := offset },
          { index := cfg.globalIndex, query := query, limit := limit, offset := offset }])

/-- The engine health payload (meilisearch client health response). -/
structure MHealth where
  status : String
deriving DecidableEq, Repr

/-- The value returned by healthCheck: either status healthy with the
meilisearch payload, or status unhealthy with the error message. -/
structure HealthCheckResult where
  status : String
  meilisearch : Option MHealth
  error : Option String
deriving DecidableEq, Repr

/-- healthCheck from the search service module: a try/catch around the
engine health call; it returns a value on both branches and never
throws.  Thrown errors are modelled by their message string. -/
def healthCheck (o : Except String MHealth) : HealthCheckResult :=
  match o with
  | .ok h => { status := "healthy", meilisearch := some h, error := none }
  | .error e => { status := "unhealthy", meilisearch := none, error := some e }

/-- The HTTP response written by the health controller (the timestamp
field, real wall-clock time, is not modelled). -/
structure HealthHttpResponse where
  statusCode : Nat
  success : Bool
  service : String
  status : String
  meilisearch : Option MHealth
  error : Option String
deriving DecidableEq, Repr

/-- The health controller body seen as a function of what awaiting
healthCheck produced: the try branch maps the health status to 200 or
503 and spreads it into the envelope; the catch branch answers 503 with
the thrown error message. -/
def healthHandlerGeneric (r : Except String HealthCheckResult) : HealthHttpResponse :=
  match r with
  | .ok hs =>
      { statusCode := if hs.status = "healthy" then 200 else 503,
        success := hs.status = "healthy", service := "search-service",
        status := hs.status, meilisearch := hs.meilisearch, error := hs.error }
  | .error e =>
      { statusCode := 503, success := false, service := "search-service",
        status := "unhealthy", meilisearch := none, error := some e }

/-- The health controller composed with healthCheck.  healthCheck never
throws, so the await always yields the ok case. -/
def healthHandler (o : Except String MHealth) : HealthHttpResponse :=
  healthHandlerGeneric (Except.ok (healthCheck o))

/-- A JavaScript error value as read by the error handler middleware:
message, stack, and the optional numeric statusCode and status fields. -/
structure JsError where
  message : String
  stack : String
  statusCode : Option Nat
  status : Option Nat
deriving DecidableEq, Repr

/-- JavaScript or-else on an optional number: undefined and 0 are falsy
and fall through to the default. -/
def jsOrNat (o : Option Nat) (d : Nat) : Nat :=
  match o with
  | some n => if n = 0 then d else n
  | none => d

/-- The response written by the global error handler middleware. -/
structure ErrorResponse where
  statusCode : Nat
  success : Bool
  message : String
  stack : Option String
deriving DecidableEq, Repr

/-- errorHandler from the middleware module: status code is
err.statusCode or-else err.status or-else 500; in production the message
is the generic string and the stack is omitted, otherwise the error
message and stack are echoed. -/
def errorHandler (production : Bool) (err : JsError) : ErrorResponse :=
  { statusCode := jsOrNat err.statusCode (jsOrNat err.status 500),
    success := false,
    message := if production then "Internal server error" else err.message,
    stack := if production then none else some err.stack }

instance {ε α : Type} [DecidableEq ε] [DecidableEq α] : DecidableEq (Except ε α) := fun x y =>
  match x, y with
  | .error a, .error b =>
      if h : a = b then .isTrue (by rw [h]) else .isFalse (by intro hh; cases hh; exact h rfl)
  | .ok a, .ok b =>
      if h : a = b then .isTrue (by rw [h]) else .isFalse (by intro hh; cases hh; exact h rfl)
  | .error _, .ok _ => .isFalse (by intro hh; cases hh)
  | .ok _, .error _ => .isFalse (by intro hh; cases hh)

/-- A JSON primitive value of a request-body field, as far as the
validated fields can be: a string or a number (integral JSON numbers;
the validator rejects every other shape anyway). -/
inductive JVal where
  | jstr (s : String)
  | jnum (n : Int)
deriving DecidableEq, Repr

/-- The raw request body: each field either absent (undefined) or a
JSON primitive. -/
structure RawBody where
  query : Option JVal
  slug : Option JVal
  limit : Option JVal
  offset : Option JVal
deriving DecidableEq, Repr

/-- Whitespace as trimmed by the string trim of the validator library
(tab through carriage return, and space; wider unicode space classes are
not modelled). -/
def isWsChar (c : Char) : Bool :=
  c.toNat = 32 || (9 ≤ c.toNat && c.toNat ≤ 13)

/-- String trim as applied by the trim sanitizer and by JavaScript:
strip leading and trailing whitespace. -/
def jsTrim (s : String) : String :=
  String.mk (((s.data.dropWhile isWsChar).reverse.dropWhile isWsChar).reverse)

/-- A decimal digit character. -/
def isDigitChar (c : Char) : Bool :=
  48 ≤ c.toNat && c.toNat ≤ 57

/-- Numeric value of a list of decimal digit characters. -/
def digitsToNat (cs : List Char) : Nat :=
  cs.foldl (fun a c => a * 10 + (c.toNat - 48)) 0

/-- Parse a nonempty all-digit character list, else none. -/
def parseDigits : List Char → Option Nat
  | [] => none
  | cs => if cs.all isDigitChar then some (digitsToNat cs) else none

/-- The integer-string check of the validator library: an optional sign
followed by one or more decimal digits (leading zeroes allowed, the
default), covering the whole string. -/
def parseIntFull : String → Option Int
  | s =>
    match s.data with
    | '-' :: rest => (parseDigits rest).map (fun n => -(n : Int))
    | '+' :: rest => (parseDigits rest).map (fun n => (n : Int))
    | cs => (parseDigits cs).map (fun n => (n : Int))

/-- Decimal digits of a natural number (fuel-based helper). -/
def natToStrAux : Nat → Nat → List Char
  | 0, _ => []
  | fuel + 1, n =>
      if n < 10 then [Char.ofNat (48 + n)]
      else natToStrAux fuel (n / 10) ++ [Char.ofNat (48 + n % 10)]

/-- Decimal string of a natural number. -/
def natToStr (n : Nat) : String :=
  String.mk (natToStrAux (n + 1) n)

/-- Decimal string of an integer, as JavaScript number-to-string gives
for integral values. -/
def intToStr : Int → String
  | .ofNat n => natToStr n
  | .negSucc m => String.mk ('-' :: (natToStr (m + 1)).data)

/-- The string coercion the validator library applies before sanitizers
and string-based validators: undefined becomes the empty string, numbers
their decimal representation. -/
def coerceStr : Option JVal → String
  | none => ""
  | some (.jstr s) => s
  | some (.jnum n) => intToStr n

/-- The isString validator: true exactly on string-valued fields. -/
def isStringV : Option JVal → Bool
  | some (.jstr _) => true
  | _ => false

/-- One character of the slug character class a-z, 0-9, underscore,
hyphen. -/
def isSlugChar (c : Char) : Bool :=
  ('a' ≤ c && c ≤ 'z') || ('0' ≤ c && c ≤ '9') || c == '_' || c == '-'

/-- The matches check of the slug chain: the anchored one-or-more
repetition of the slug character class, i.e. nonempty and every
character in the class. -/
def slugMatches (t : String) : Bool :=
  !t.data.isEmpty && t.data.all isSlugChar

/-- The isInt validator with bounds: coerce the value to a string, parse
it as a full integer string, and compare against the bounds. -/
def isIntVal (v : JVal) (lo : Int) (hi : Option Int) : Bool :=
  match parseIntFull (coerceStr (some v)) with
  | none => false
  | some n => lo ≤ n && (match hi with | some h => n ≤ h | none => true)

/-- One entry of the 400 response error array: field path and message. -/
structure FieldError where
  field : String
  message : String
deriving DecidableEq, Repr

/-- The query chain: isString, trim (a sanitizer rewriting the stored
value), notEmpty with its message.  Each failing validator contributes
one error entry; the chain does not bail after a failure.  The default
message of a validator without withMessage is Invalid value. -/
def runQueryChain (v : Option JVal) : List FieldError × Option JVal :=
  let e1 := if isStringV v then [] else
    [{ field := "query", message := "Invalid value" }]
  let t := jsTrim (coerceStr v)
  let e2 := if t = "" then
    [{ field := "query", message := "Query is required and must be a non-empty string" }]
    else []
  (e1 ++ e2, some (JVal.jstr t))

/-- The slug chain: isString, trim, notEmpty with its message, matches
the slug character class with its message. -/
def runSlugChain (v : Option JVal) : List FieldError × Option JVal :=
  let e1 := if isStringV v then [] else
    [{ field := "slug", message := "Invalid value" }]
  let t := jsTrim (coerceStr v)
  let e2 := if t = "" then
    [{ field := "slug", message := "Slug is required and must be a non-empty string" }]
    else []
  let e3 := if slugMatches t then [] else
    [{ field := "slug", message := "Slug must contain only lowercase letters, numbers, hyphens and underscores" }]
  (e1 ++ e2 ++ e3, some (JVal.jstr t))

/-- The limit chain: optional, so an absent field is skipped; otherwise
isInt with min 1 and max 100. -/
def runLimitChain (v : Option JVal) : List FieldError × Option JVal :=
  match v with
  | none => ([], none)
  | some w =>
      ((if isIntVal w 1 (some 100) then [] else
          [{ field := "limit", message := "Limit must be an integer between 1 and 100" }]),
       some w)

/-- The offset chain: optional; otherwise isInt with min 0. -/
def runOffsetChain (v : Option JVal) : List FieldError × Option JVal :=
  match v with
  | none => ([], none)
  | some w =>
      ((if isIntVal w 0 none then [] else
          [{ field := "offset", message := "Offset must be a non-negative integer" }]),
       some w)

/-- Running all four validation chains over the body: the collected
error entries of every chain, and the sanitized body the controller will
read. -/
def validateBody (b : RawBody) : List FieldError × RawBody :=
  ((runQueryChain b.query).1 ++ (runSlugChain b.slug).1 ++
     (runLimitChain b.limit).1 ++ (runOffsetChain b.offset).1,
   { query := (runQueryChain b.query).2, slug := (runSlugChain b.slug).2,
     limit := (runLimitChain b.limit).2, offset := (runOffsetChain b.offset).2 })

/-- A JavaScript number as produced by parseInt: an integer or NaN. -/
inductive JsNum where
  | int (n : Int)
  | nan
deriving DecidableEq, Repr

/-- parseInt of the controller on a field value: a number parses to
itself (integral values); a string is parsed after skipping leading
whitespace, with an optional sign and the longest decimal digit run, and
is NaN when no digit follows (hexadecimal prefixes cannot reach the
controller because validation rejects them). -/
def jsParseInt : JVal → JsNum
  | .jnum n => .int n
  | .jstr s =>
      let cs := s.data.dropWhile isWsChar
      match cs with
      | '-' :: r =>
          match r.takeWhile isDigitChar with
          | [] => .nan
          | ds => .int (-(digitsToNat ds : Int))
      | '+' :: r =>
          match r.takeWhile isDigitChar with
          | [] => .nan
          | ds => .int (digitsToNat ds : Int)
      | r =>
          match r.takeWhile isDigitChar with
          | [] => .nan
          | ds => .int (digitsToNat ds : Int)

/-- The outcome written by the search route: the 400 validation
response, the 200 success envelope around the search result, or the
error forwarded to the error handler. -/
inductive SearchHttpOutcome (Hit Err : Type) where
  | badRequest (errors : List FieldError)
  | ok (data : SearchResult Hit JsNum)
  | serverError (e : Err)
deriving DecidableEq, Repr

/-- The search route pipeline: the validation chains run and the
validate middleware answers 400 with the collected errors when any chain
failed, never calling the controller; otherwise the controller reads the
sanitized body, applies the destructuring defaults 20 and 0, applies
parseInt, and delegates to searchWithFallback, wrapping success and
forwarding failure.  The second component is the list of engine calls
issued. -/
def searchEndpoint {Hit Err : Type} (cfg : Config) (engine : Engine Hit Err JsNum)
    (b : RawBody) : SearchHttpOutcome Hit Err × List (EngineCall JsNum) :=
  if (validateBody b).1 = [] then
    match searchWithFallback cfg engine (coerceStr (validateBody b).2.query)
        (coerceStr (validateBody b).2.slug)
        (match (validateBody b).2.limit with | none => JsNum.int 20 | some w => jsParseInt w)
        (match (validateBody b).2.offset with | none => JsNum.int 0 | some w => jsParseInt w) with
    | (.ok r, calls) => (.ok r, calls)
    | (.error e, calls) => (.serverError e, calls)
  else
    (.badRequest (validateBody b).1, [])

/-- Where the express application routes a request: the root banner, the
search route, the health route, or the 404 handler. -/
inductive AppTarget where
  | rootBanner
  | searchRoute
  | healthRoute
  | notFound
deriving DecidableEq, Repr

/-- Express mounting of a sub-router at a path: the mount matches when
the request path equals the mount path, or extends it at a slash, and
the sub-router then sees the remainder (the bare mount path leaves the
remainder slash). -/
def mountMatch (mountPath path : String) : Option String :=
  if path = mountPath then some "/"
  else if (mountPath ++ "/").data.isPrefixOf path.data then
    some (String.mk (path.data.drop mountPath.data.length))
  else none

/-- The routes of the shared router: POST /search and GET /health. -/
def routerDispatch (method rest : String) : Option AppTarget :=
  if method = "POST" && rest = "/search" then some .searchRoute
  else if method = "GET" && rest = "/health" then some .healthRoute
  else none

/-- The application routing from the entry point: GET / serves the
banner; the router is mounted at /api/v1 and again at /health; anything
unmatched falls to the 404 handler. -/
def appDispatch (method path : String) : AppTarget :=
  if method = "GET" && path = "/" then .rootBanner
  else
    match (mountMatch "/api/v1" path).bind (routerDispatch method) with
    | some t => t
    | none =>
        match (mountMatch "/health" path).bind (routerDispatch method) with
        | some t => t
        | none => .notFound

/-- jsOrTotal only looks at the hits and the estimate. -/
theorem jsOrTotal_congr {Hit1 Hit2 : Type} {r1 : EngineResponse Hit1} {r2 : EngineResponse Hit2}
    (hh : r1.hits.length = r2.hits.length)
    (he : r1.estimatedTotalHits = r2.estimatedTotalHits) :
    jsOrTotal r1 = jsOrTotal r2 := by
  unfold jsOrTotal
  rw [hh, he]

/-- The calls issued by searchWithFallback are the local call alone, or
the local call followed by the global call. -/
theorem searchWithFallback_calls {Hit Err P : Type} (cfg : Config) (engine : Engine Hit Err P)
    (query slug : String) (limit offset : P) :
    (searchWithFallback cfg engine query slug limit offset).2 =
      [{ index := cfg.localIndexPref ++ slug, query := query, limit := limit, offset := offset }]
  ∨ (searchWithFallback cfg engine query slug limit offset).2 =
      [{ index := cfg.localIndexPref ++ slug, query := query, limit := limit, offset := offset },
       { index := cfg.globalIndex, query := query, limit := limit, offset := offset }] := by
  unfold searchWithFallback
  cases engine (cfg.localIndexPref ++ slug) query limit offset with
  | error e => right; rfl
  | ok l =>
      by_cases h : 0 < l.hits.length
      · left; simp [h]
      · right; simp [h]

/-- A successful searchWithFallback result echoes the query argument. -/
theorem searchWithFallback_ok_query {Hit Err P : Type} (cfg : Config) (engine : Engine Hit Err P)
    (query slug : String) (limit offset : P) (r : SearchResult Hit P)
    (h : (searchWithFallback cfg engine query slug limit offset).1 = .ok r) :
    r.query = query := by
  unfold searchWithFallback at h
  cases hl : engine (cfg.localIndexPref ++ slug) query limit offset with
  | error e =>
      rw [hl] at h
      simp only [globalStep] at h
      cases hg : engine cfg.globalIndex query limit offset with
      | error e2 => rw [hg] at h; cases h
      | ok g => rw [hg] at h; cases h; rfl
  | ok l =>
      rw [hl] at h
      by_cases hn : 0 < l.hits.length
      · simp only [hn, if_true] at h
        cases h; rfl
      · simp only [hn, if_false] at h
        simp only [globalStep] at h
        cases hg : engine cfg.globalIndex query limit offset with
        | error e2 => rw [hg] at h; cases h
        | ok g => rw [hg] at h; cases h; rfl

/-- C1: when the tenant-specific (local) index call succeeds with one or
more hits, searchWithFallback returns immediately with source local,
indexName the local prefix concatenated with the tenant id, the engine
hits and processingTimeMs passed through verbatim, and the only engine
call issued is the local one — the global call is never made. -/
theorem local_hit_short_circuits {Hit Err P : Type} (cfg : Config) (engine : Engine Hit Err P)
    (query slug : String) (limit offset : P) (l : EngineResponse Hit)
    (hl : engine (cfg.localIndexPref ++ slug) query limit offset = .ok l)
    (hn : 0 < l.hits.length) :
    searchWithFallback cfg engine query slug limit offset =
      (Except.ok { source := "local", indexName := cfg.localIndexPref ++ slug,
                   hits := l.hits, total := jsOrTotal l, query := query, limit := limit,
                   offset := offset, processingTimeMs := l.processingTimeMs },
       [{ index := cfg.localIndexPref ++ slug, query := query, limit := limit, offset := offset }]) := by
  unfold searchWithFallback
  rw [hl]
  simp [hn]

/-- C1 witness at a concrete engine with one local hit. -/
def engLocalHit : Engine Nat String Int := fun idx _ _ _ =>
  if idx = "productos_colmado_tienda" then
    .ok { hits := [7], estimatedTotalHits := some 3, processingTimeMs := 12 }
  else .error "global index should not be consulted"

/-- Witness for C1: a concrete run in which the local index has one hit. -/
theorem local_hit_short_circuits_witness :
    engLocalHit (defaultConfig.localIndexPref ++ "tienda") "arroz" 1 0 =
      Except.ok { hits := [7], estimatedTotalHits := some 3, processingTimeMs := 12 }
  ∧ searchWithFallback defaultConfig engLocalHit "arroz" "tienda" (1 : Int) 0 =
      (Except.ok { source := "local", indexName := "productos_colmado_tienda",
                   hits := [7], total := 3, query := "arroz", limit := 1, offset := 0,
                   processingTimeMs := 12 },
       [{ index := "productos_colmado_tienda", query := "arroz", limit := 1, offset := 0 }]) :=
  ⟨by decide,
   by rw [local_hit_short_circuits defaultConfig engLocalHit "arroz" "tienda" 1 0
       { hits := [7], estimatedTotalHits := some 3, processingTimeMs := 12 }
       (by decide) (by decide)]; decide⟩

/-- C2: the search fails only if the global call fails and that failure
propagates unmodified; any local failure, and a successful local call
with zero hits, are both treated as fallback, so that whenever the
global call succeeds the result is the global envelope — even with empty
global hits. -/
theorem global_fallback_and_error_propagation {Hit Err P : Type} (cfg : Config)
    (engine : Engine Hit Err P) (query slug : String) (limit offset : P) :
    (∀ e, (searchWithFallback cfg engine query slug limit offset).1 = .error e →
       engine cfg.globalIndex query limit offset = .error e)
  ∧ (∀ g, engine cfg.globalIndex query limit offset = .ok g →
       (∀ x, engine (cfg.localIndexPref ++ slug) query limit offset = .error x →
          (searchWithFallback cfg engine query slug limit offset).1 =
            .ok { source := "global", indexName := cfg.globalIndex, hits := g.hits,
                  total := jsOrTotal g, query := query, limit := limit,
                  offset := offset, processingTimeMs := g.processingTimeMs })
     ∧ (∀ lr, engine (cfg.localIndexPref ++ slug) query limit offset = .ok lr →
          lr.hits = [] →
          (searchWithFallback cfg engine query slug limit offset).1 =
            Except.ok { source := "global", indexName := cfg.globalIndex, hits := g.hits,
                        total := jsOrTotal g, query := query, limit := limit,
                        offset := offset, processingTimeMs := g.processingTimeMs })) := by
  constructor
  · intro e h
    unfold searchWithFallback at h
    cases hl : engine (cfg.localIndexPref ++ slug) query limit offset with
    | error x =>
        rw [hl] at h
        simp only [globalStep] at h
        cases hg : engine cfg.globalIndex query limit offset with
        | error e2 => rw [hg] at h; cases h; rfl
        | ok g => rw [hg] at h; cases h
    | ok l =>
        rw [hl] at h
        by_cases hn : 0 < l.hits.length
        · simp only [hn, if_true] at h; cases h
        · simp only [hn, if_false] at h
          simp only [globalStep] at h
          cases hg : engine cfg.globalIndex query limit offset with
          | error e2 => rw [hg] at h; cases h; rfl
          | ok g => rw [hg] at h; cases h
  · intro g hg
    constructor
    · intro x hl
      unfold searchWithFallback
      rw [hl]
      simp only [globalStep]
      rw [hg]
    · intro lr hl hz
      unfold searchWithFallback
      rw [hl]
      have hn : ¬ 0 < lr.hits.length := by rw [hz]; simp
      simp only [hn, if_false]
      simp only [globalStep]
      rw [hg]

/-- Witness engine for C2: the local index is broken, the global index
answers with no hits. -/
def engLocalDown : Engine Nat String Int := fun idx _ _ _ =>
  if idx = "colmado_inventory" then
    .ok { hits := [], estimatedTotalHits := none, processingTimeMs := 4 }
  else .error "index not found"

/-- Witness for C2: with a failing local index and a successful empty
global response, the result is the global envelope with zero hits. -/
theorem global_fallback_witness :
    engLocalDown "colmado_inventory" "jabon" 2 0 =
      Except.ok { hits := [], estimatedTotalHits := none, processingTimeMs := 4 }
  ∧ engLocalDown (defaultConfig.localIndexPref ++ "tienda") "jabon" 2 0 = Except.error "index not found"
  ∧ (searchWithFallback defaultConfig engLocalDown "jabon" "tienda" (2 : Int) 0).1 =
      Except.ok { source := "global", indexName := "colmado_inventory", hits := [],
                  total := 0, query := "jabon", limit := 2, offset := 0, processingTimeMs := 4 } :=
  ⟨by decide, by decide,
   ((global_fallback_and_error_propagation defaultConfig engLocalDown "jabon" "tienda" 2 0).2
      { hits := [], estimatedTotalHits := none, processingTimeMs := 4 } (by decide)).1
      "index not found" (by decide)⟩

/-- C3: every successful result has source local or global; source local
comes with indexName exactly the configured local prefix concatenated
with the tenant id and only when the local call succeeded with at least
one hit; source global comes with indexName exactly the configured
global index name. -/
theorem source_index_invariant {Hit Err P : Type} (cfg : Config) (engine : Engine Hit Err P)
    (query slug : String) (limit offset : P) (r : SearchResult Hit P)
    (h : (searchWithFallback cfg engine query slug limit offset).1 = .ok r) :
    (r.source = "local" ∨ r.source = "global")
  ∧ (r.source = "local" → r.indexName = cfg.localIndexPref ++ slug ∧
       ∃ lr, engine (cfg.localIndexPref ++ slug) query limit offset = .ok lr ∧
         0 < lr.hits.length)
  ∧ (r.source = "global" → r.indexName = cfg.globalIndex) := by
  unfold searchWithFallback at h
  cases hl : engine (cfg.localIndexPref ++ slug) query limit offset with
  | error x =>
      rw [hl] at h
      simp only [globalStep] at h
      cases hg : engine cfg.globalIndex query limit offset with
      | error e2 => rw [hg] at h; cases h
      | ok g =>
          rw [hg] at h; cases h
          refine ⟨Or.inr rfl, ?_, fun _ => rfl⟩
          intro hsrc; simp at hsrc
  | ok l =>
      rw [hl] at h
      by_cases hn : 0 < l.hits.length
      · simp only [hn, if_true] at h
        cases h
        exact ⟨Or.inl rfl, fun _ => ⟨rfl, l, rfl, hn⟩,
          fun hsrc => by simp at hsrc⟩
      · simp only [hn, if_false] at h
        simp only [globalStep] at h
        cases hg : engine cfg.globalIndex query limit offset with
        | error e2 => rw [hg] at h; cases h
        | ok g =>
            rw [hg] at h; cases h
            refine ⟨Or.inr rfl, ?_, fun _ => rfl⟩
            intro hsrc; simp at hsrc

/-- Witness for C3 at the concrete local-hit engine. -/
theorem source_index_invariant_witness :
    (searchWithFallback defaultConfig engLocalHit "arroz" "tienda" (1 : Int) 0).1 =
      Except.ok { source := "local", indexName := "productos_colmado_tienda",
                  hits := [7], total := 3, query := "arroz", limit := 1, offset := 0,
                  processingTimeMs := 12 }
  ∧ ("local" = "local" ∨ ("local" : String) = "global")
  ∧ ("productos_colmado_tienda" = defaultConfig.localIndexPref ++ "tienda") :=
  ⟨by decide,
   (source_index_invariant defaultConfig engLocalHit "arroz" "tienda" 1 0
      { source := "local", indexName := "productos_colmado_tienda", hits := [7],
        total := 3, query := "arroz", limit := 1, offset := 0, processingTimeMs := 12 }
      (by decide)).1,
   by decide⟩

/-- C4 (amended): the total of a result is the two-tier default with
JavaScript truthiness — the engine estimate is used when present and
nonzero, and the length of the hits array is used when the estimate is
absent or equal to 0 — and every successful result takes its total (and
hits) from the engine response that built it. -/
theorem total_two_tier_truthiness {Hit Err P : Type} :
    (∀ (resp : EngineResponse Hit),
       (∀ n, resp.estimatedTotalHits = some n → n ≠ 0 → jsOrTotal resp = n)
     ∧ (resp.estimatedTotalHits = none ∨ resp.estimatedTotalHits = some 0 →
          jsOrTotal resp = resp.hits.length))
  ∧ (∀ (cfg : Config) (engine : Engine Hit Err P) (query slug : String)
       (limit offset : P) (r : SearchResult Hit P),
       (searchWithFallback cfg engine query slug limit offset).1 = .ok r →
       (∃ lr, engine (cfg.localIndexPref ++ slug) query limit offset = .ok lr ∧
          r.total = jsOrTotal lr ∧ r.hits = lr.hits)
     ∨ (∃ g, engine cfg.globalIndex query limit offset = .ok g ∧
          r.total = jsOrTotal g ∧ r.hits = g.hits)) := by
  constructor
  · intro resp
    constructor
    · intro n he hn
      unfold jsOrTotal
      rw [he]
      simp [hn]
    · intro he
      rcases he with he | he <;> simp [jsOrTotal, he]
  · intro cfg engine query slug limit offset r h
    unfold searchWithFallback at h
    cases hl : engine (cfg.localIndexPref ++ slug) query limit offset with
    | error x =>
        rw [hl] at h
        simp only [globalStep] at h
        cases hg : engine cfg.globalIndex query limit offset with
        | error e2 => rw [hg] at h; cases h
        | ok g => rw [hg] at h; cases h; exact Or.inr ⟨g, rfl, rfl, rfl⟩
    | ok l =>
        rw [hl] at h
        by_cases hn : 0 < l.hits.length
        · simp only [hn, if_true] at h
          cases h
          exact Or.inl ⟨l, rfl, rfl, rfl⟩
        · simp only [hn, if_false] at h
          simp only [globalStep] at h
          cases hg : engine cfg.globalIndex query limit offset with
          | error e2 => rw [hg] at h; cases h
          | ok g => rw [hg] at h; cases h; exact Or.inr ⟨g, rfl, rfl, rfl⟩

/-- Engine whose local response carries a present estimate of 0 together
with one hit, exercising the truthiness gap of the or-else idiom. -/
def engEstZero : Engine Nat String Int := fun _ _ _ _ =>
  .ok { hits := [0], estimatedTotalHits := some 0, processingTimeMs := 5 }

/-- Counterexample for C4 as stated: the engine response used to build
the result has estimatedTotalHits present and equal to 0, yet the result
total is the hits length 1, not the present estimate 0 — the code tests
truthiness, not presence. -/
theorem total_estimate_zero_cex :
    engEstZero "productos_colmado_s" "q" 1 0 =
      Except.ok { hits := [0], estimatedTotalHits := some 0, processingTimeMs := 5 }
  ∧ (searchWithFallback defaultConfig engEstZero "q" "s" (1 : Int) 0).1 =
      Except.ok { source := "local", indexName := "productos_colmado_s", hits := [0],
                  total := 1, query := "q", limit := 1, offset := 0, processingTimeMs := 5 }
  ∧ (1 : Nat) ≠ 0 := by
  refine ⟨by decide, by decide, by decide⟩

/-- Witness for C4 (amended) at a concrete engine: a nonzero estimate is
passed through, and the amended theorem locates the response the total
came from. -/
theorem total_two_tier_truthiness_witness :
    jsOrTotal { hits := [(7 : Nat)], estimatedTotalHits := some 3, processingTimeMs := 12 } = 3
  ∧ ((∃ lr, engLocalHit (defaultConfig.localIndexPref ++ "tienda") "arroz" 1 0 = Except.ok lr ∧
        (3 : Nat) = jsOrTotal lr ∧ [(7 : Nat)] = lr.hits)
   ∨ (∃ g, engLocalHit defaultConfig.globalIndex "arroz" 1 0 = Except.ok g ∧
        (3 : Nat) = jsOrTotal g ∧ [(7 : Nat)] = g.hits)) :=
  ⟨(@total_two_tier_truthiness Nat String Int).1
      { hits := [(7 : Nat)], estimatedTotalHits := some 3, processingTimeMs := 12 }
      |>.1 3 rfl (by decide),
   (total_two_tier_truthiness.2 defaultConfig engLocalHit "arroz" "tienda" 1 0
      { source := "local", indexName := "productos_colmado_tienda", hits := [7],
        total := 3, query := "arroz", limit := 1, offset := 0, processingTimeMs := 12 }
      (by decide))⟩

/-- C7 (amended): the error handler answers with err.statusCode when it
is a present nonzero number, else err.status when present and nonzero,
else 500; in production the body carries only the generic message and no
stack, and outside production it echoes the error message and stack. -/
theorem error_handler_status_and_sanitization (production : Bool) (err : JsError) :
    ((err.statusCode = none ∨ err.statusCode = some 0) →
       (err.status = none ∨ err.status = some 0) →
       (errorHandler production err).statusCode = 500)
  ∧ (∀ n, err.statusCode = some n → n ≠ 0 → (errorHandler production err).statusCode = n)
  ∧ (∀ m, (err.statusCode = none ∨ err.statusCode = some 0) → err.status = some m →
       m ≠ 0 → (errorHandler production err).statusCode = m)
  ∧ (production = true → (errorHandler production err).message = "Internal server error"
       ∧ (errorHandler production err).stack = none)
  ∧ (production = false → (errorHandler production err).message = err.message
       ∧ (errorHandler production err).stack = some err.stack) := by
  refine ⟨?_, ?_, ?_, ?_, ?_⟩
  · intro hsc hst
    unfold errorHandler jsOrNat
    rcases hsc with hsc | hsc <;> rcases hst with hst | hst <;> rw [hsc, hst] <;> simp
  · intro n hsc hn
    unfold errorHandler jsOrNat
    rw [hsc]
    simp [hn]
  · intro m hsc hst hm
    unfold errorHandler jsOrNat
    rcases hsc with hsc | hsc <;> rw [hsc, hst] <;> simp [hm]
  · intro hp; subst hp; exact ⟨rfl, rfl⟩
  · intro hp; subst hp; exact ⟨rfl, rfl⟩

/-- Counterexample for C7 as stated: an unhandled error carrying a
statusCode field is answered with that status, not 500, even in
production. -/
theorem error_handler_status_cex :
    (errorHandler true { message := "boom", stack := "trace",
                         statusCode := some 404, status := none }).statusCode = 404
  ∧ (404 : Nat) ≠ 500 := by
  refine ⟨by decide, by decide⟩

/-- Witness for C7 (amended): in production, a plain error with neither
statusCode nor status is answered 500 with the generic message and no
stack. -/
theorem error_handler_witness :
    (errorHandler true { message := "boom", stack := "trace",
                         statusCode := none, status := none }).statusCode = 500
  ∧ (errorHandler true { message := "boom", stack := "trace",
                         statusCode := none, status := none }).message = "Internal server error"
  ∧ (errorHandler true { message := "boom", stack := "trace",
                         statusCode := none, status := none }).stack = none :=
  ⟨(error_handler_status_and_sanitization true
      { message := "boom", stack := "trace", statusCode := none, status := none }).1
      (Or.inl rfl) (Or.inl rfl),
   ((error_handler_status_and_sanitization true
      { message := "boom", stack := "trace", statusCode := none, status := none }).2.2.2.1 rfl).1,
   ((error_handler_status_and_sanitization true
      { message := "boom", stack := "trace", statusCode := none, status := none }).2.2.2.1 rfl).2⟩

/-- C9: healthCheck is total — for every outcome of the engine health
call, including a thrown error, it evaluates to one of exactly the two
shapes, healthy with the engine payload or unhealthy with the error
message — and the health controller therefore always runs the try branch:
its behaviour factors through the ok case of the awaited value, so the
catch branch of the HTTP health handler is unreachable. -/
theorem healthCheck_total_shapes (o : Except String MHealth) :
    ((∃ h, healthCheck o = { status := "healthy", meilisearch := some h, error := none })
   ∨ (∃ m, healthCheck o = { status := "unhealthy", meilisearch := none, error := some m }))
  ∧ healthHandler o = healthHandlerGeneric (Except.ok (healthCheck o)) := by
  cases o with
  | ok h => exact ⟨Or.inl ⟨h, rfl⟩, rfl⟩
  | error m => exact ⟨Or.inr ⟨m, rfl⟩, rfl⟩

/-- C6: evaluation of the routing and of the health handler.  The
versioned path GET /api/v1/health reaches the health route and the
handler produces the documented 200 and 503 envelopes; but the alias
GET /health falls through to the 404 handler, because the shared router
is mounted at /health while its only GET route is itself /health, so the
handler is actually served at GET /health/health. -/
theorem health_alias_unreachable_eval :
    appDispatch "GET" "/api/v1/health" = AppTarget.healthRoute
  ∧ appDispatch "GET" "/health" = AppTarget.notFound
  ∧ appDispatch "GET" "/health/health" = AppTarget.healthRoute
  ∧ (∀ h, healthHandler (Except.ok h) =
      { statusCode := 200, success := true, service := "search-service",
        status := "healthy", meilisearch := some h, error := none })
  ∧ (∀ m, healthHandler (Except.error m) =
      { statusCode := 503, success := false, service := "search-service",
        status := "unhealthy", meilisearch := none, error := some m }) := by
  refine ⟨by decide, by decide, by decide, fun h => rfl, fun m => rfl⟩

/-- Agreement of two engine outcomes up to processing time: both fail
with the same error, or both succeed with the same hits and the same
estimate (processingTimeMs free). -/
def RespAgree {Hit Err : Type} : Except Err (EngineResponse Hit) →
    Except Err (EngineResponse Hit) → Prop
  | .error e1, .error e2 => e1 = e2
  | .ok r1, .ok r2 => r1.hits = r2.hits ∧ r1.estimatedTotalHits = r2.estimatedTotalHits
  | _, _ => False

/-- Agreement of two search outcomes up to processing time: both fail
with the same error, or both succeed with the same source, indexName,
hits and total. -/
def ResultAgree {Hit Err P : Type} : Except Err (SearchResult Hit P) →
    Except Err (SearchResult Hit P) → Prop
  | .error e1, .error e2 => e1 = e2
  | .ok r1, .ok r2 =>
      r1.source = r2.source ∧ r1.indexName = r2.indexName ∧
      r1.hits = r2.hits ∧ r1.total = r2.total
  | _, _ => False

/-- C8: two runs of searchWithFallback on the identical request against
engines that return the same responses up to processing time yield
results with identical source, indexName, hits and total — only
processingTimeMs may differ. -/
theorem idempotence_mod_processing_time {Hit Err P : Type} (cfg : Config)
    (e1 e2 : Engine Hit Err P)
    (hag : ∀ idx q lim off, RespAgree (e1 idx q lim off) (e2 idx q lim off))
    (query slug : String) (limit offset : P) :
    ResultAgree (searchWithFallback cfg e1 query slug limit offset).1
      (searchWithFallback cfg e2 query slug limit offset).1 := by
  have hloc := hag (cfg.localIndexPref ++ slug) query limit offset
  have hglo := hag cfg.globalIndex query limit offset
  unfold searchWithFallback
  have hglobal : ResultAgree (globalStep cfg e1 query limit offset)
      (globalStep cfg e2 query limit offset) := by
    unfold globalStep
    cases hg1 : e1 cfg.globalIndex query limit offset with
    | error x =>
        cases hg2 : e2 cfg.globalIndex query limit offset with
        | error y =>
            rw [hg1, hg2] at hglo
            exact hglo
        | ok g2 => rw [hg1, hg2] at hglo; exact hglo.elim
    | ok g1 =>
        cases hg2 : e2 cfg.globalIndex query limit offset with
        | error y => rw [hg1, hg2] at hglo; exact hglo.elim
        | ok g2 =>
            rw [hg1, hg2] at hglo
            exact ⟨rfl, rfl, hglo.1,
              jsOrTotal_congr (by rw [hglo.1]) hglo.2⟩
  cases hl1 : e1 (cfg.localIndexPref ++ slug) query limit offset with
  | error x =>
      cases hl2 : e2 (cfg.localIndexPref ++ slug) query limit offset with
      | error y => exact hglobal
      | ok l2 => rw [hl1, hl2] at hloc; exact hloc.elim
  | ok l1 =>
      cases hl2 : e2 (cfg.localIndexPref ++ slug) query limit offset with
      | error y => rw [hl1, hl2] at hloc; exact hloc.elim
      | ok l2 =>
          rw [hl1, hl2] at hloc
          have hlen : l1.hits.length = l2.hits.length := by rw [hloc.1]
          by_cases hn : 0 < l1.hits.length
          · have hn2 : 0 < l2.hits.length := hlen ▸ hn
            simp only [hn, hn2, if_true]
            exact ⟨rfl, rfl, hloc.1, jsOrTotal_congr hlen hloc.2⟩
          · have hn2 : ¬ 0 < l2.hits.length := hlen ▸ hn
            simp only [hn, hn2, if_false]
            exact hglobal

/-- A pair of engines for the C8 witness: identical data, different
processing times. -/
def engTimed (t : Nat) : Engine Nat String Int := fun idx _ _ _ =>
  if idx = "colmado_inventory" then
    .ok { hits := [3], estimatedTotalHits := some 1, processingTimeMs := t }
  else
    .ok { hits := [], estimatedTotalHits := some 0, processingTimeMs := t }

/-- Witness for C8: two concrete engines with the same data but
different processing times give agreeing results. -/
theorem idempotence_witness :
    ResultAgree (searchWithFallback defaultConfig (engTimed 10) "arroz" "tienda" (1 : Int) 0).1
      (searchWithFallback defaultConfig (engTimed 99) "arroz" "tienda" (1 : Int) 0).1 :=
  idempotence_mod_processing_time defaultConfig (engTimed 10) (engTimed 99)
    (fun idx _ _ _ => by
      by_cases hi : idx = "colmado_inventory" <;> simp [engTimed, hi, RespAgree])
    "arroz" "tienda" 1 0

/-- The acceptance condition in the words of the specification: query is
a string that is non-empty after trimming; slug is a string that after
trimming is non-empty and consists only of slug-class characters; limit,
if present, parses as an integer between 1 and 100; offset, if present,
parses as a non-negative integer. -/
def specAccepts (b : RawBody) : Prop :=
  (∃ q, b.query = some (JVal.jstr q) ∧ jsTrim q ≠ "")
  ∧ (∃ s, b.slug = some (JVal.jstr s) ∧ jsTrim s ≠ "" ∧ (jsTrim s).data.all isSlugChar = true)
  ∧ (b.limit = none ∨ ∃ w n, b.limit = some w ∧
      parseIntFull (coerceStr (some w)) = some n ∧ 1 ≤ n ∧ n ≤ 100)
  ∧ (b.offset = none ∨ ∃ w n, b.offset = some w ∧
      parseIntFull (coerceStr (some w)) = some n ∧ 0 ≤ n)

/-- Every entry of the query chain is tagged with the query field. -/
theorem runQueryChain_field (v : Option JVal) :
    ∀ fe ∈ (runQueryChain v).1, fe.field = "query" := by
  intro fe hfe
  unfold runQueryChain at hfe
  simp only [List.mem_append] at hfe
  rcases hfe with h | h <;> split at h <;> simp_all

/-- Every entry of the slug chain is tagged with the slug field. -/
theorem runSlugChain_field (v : Option JVal) :
    ∀ fe ∈ (runSlugChain v).1, fe.field = "slug" := by
  intro fe hfe
  unfold runSlugChain at hfe
  simp only [List.mem_append] at hfe
  rcases hfe with (h | h) | h <;> split at h <;> simp_all

/-- Every entry of the limit chain is tagged with the limit field. -/
theorem runLimitChain_field (v : Option JVal) :
    ∀ fe ∈ (runLimitChain v).1, fe.field = "limit" := by
  intro fe hfe
  unfold runLimitChain at hfe
  cases v with
  | none => simp at hfe
  | some w => split at hfe <;> simp_all

/-- Every entry of the offset chain is tagged with the offset field. -/
theorem runOffsetChain_field (v : Option JVal) :
    ∀ fe ∈ (runOffsetChain v).1, fe.field = "offset" := by
  intro fe hfe
  unfold runOffsetChain at hfe
  cases v with
  | none => simp at hfe
  | some w => split at hfe <;> simp_all

/-- The query chain accepts exactly the string values that are non-empty
after trimming. -/
theorem runQueryChain_nil_iff (v : Option JVal) :
    (runQueryChain v).1 = [] ↔ ∃ q, v = some (JVal.jstr q) ∧ jsTrim q ≠ "" := by
  cases v with
  | none => simp [runQueryChain, isStringV, coerceStr]
  | some w =>
      cases w with
      | jstr s =>
          simp only [runQueryChain, isStringV, coerceStr, if_true]
          by_cases ht : jsTrim s = "" <;> simp [ht]
      | jnum n => simp [runQueryChain, isStringV, coerceStr]

/-- The slug chain accepts exactly the string values that trim to a
non-empty string of slug-class characters. -/
theorem runSlugChain_nil_iff (v : Option JVal) :
    (runSlugChain v).1 = [] ↔
      ∃ s, v = some (JVal.jstr s) ∧ jsTrim s ≠ "" ∧ (jsTrim s).data.all isSlugChar = true := by
  cases v with
  | none => simp [runSlugChain, isStringV, coerceStr]
  | some w =>
      cases w with
      | jstr s =>
          simp only [runSlugChain, isStringV, coerceStr, if_true]
          by_cases ht : jsTrim s = ""
          · simp [ht, slugMatches]
          · have hne : (jsTrim s).data ≠ [] := by
              intro hd
              exact ht (String.ext_iff.2 hd)
            by_cases ha : (jsTrim s).data.all isSlugChar
            · simp [ht, ha, slugMatches, List.isEmpty_iff, hne]
              exact fun x hx => List.all_eq_true.1 ha x hx
            · have ha2 : (jsTrim s).data.all isSlugChar = false := by
                simpa using ha
              simp [ht, slugMatches, List.isEmpty_iff, hne, ha2]
              simpa using List.all_eq_false.mp ha2
      | jnum n => simp [runSlugChain, isStringV, coerceStr]

/-- The limit chain accepts exactly an absent value or one that parses
as an integer between 1 and 100. -/
theorem runLimitChain_nil_iff (v : Option JVal) :
    (runLimitChain v).1 = [] ↔
      (v = none ∨ ∃ w n, v = some w ∧
        parseIntFull (coerceStr (some w)) = some n ∧ 1 ≤ n ∧ n ≤ 100) := by
  cases v with
  | none => simp [runLimitChain]
  | some w =>
      constructor
      · intro h
        by_cases hv : isIntVal w 1 (some 100) = true
        · unfold isIntVal at hv
          cases hp : parseIntFull (coerceStr (some w)) with
          | none => rw [hp] at hv; cases hv
          | some n =>
              rw [hp] at hv
              simp only [Bool.and_eq_true, decide_eq_true_eq] at hv
              exact Or.inr ⟨w, n, rfl, hp, hv.1, hv.2⟩
        · simp [runLimitChain, hv] at h
      · rintro (h | ⟨w2, n, hw2, hp, h1, h2⟩)
        · cases h
        · cases hw2
          have hv : isIntVal w 1 (some 100) = true := by
            unfold isIntVal
            rw [hp]
            simp [h1, h2]
          simp [runLimitChain, hv]

/-- The offset chain accepts exactly an absent value or one that parses
as a non-negative integer. -/
theorem runOffsetChain_nil_iff (v : Option JVal) :
    (runOffsetChain v).1 = [] ↔
      (v = none ∨ ∃ w n, v = some w ∧
        parseIntFull (coerceStr (some w)) = some n ∧ 0 ≤ n) := by
  cases v with
  | none => simp [runOffsetChain]
  | some w =>
      constructor
      · intro h
        by_cases hv : isIntVal w 0 none = true
        · unfold isIntVal at hv
          cases hp : parseIntFull (coerceStr (some w)) with
          | none => rw [hp] at hv; cases hv
          | some n =>
              rw [hp] at hv
              simp only [Bool.and_eq_true, decide_eq_true_eq] at hv
              exact Or.inr ⟨w, n, rfl, hp, hv.1⟩
        · simp [runOffsetChain, hv] at h
      · rintro (h | ⟨w2, n, hw2, hp, h1⟩)
        · cases h
        · cases hw2
          have hv : isIntVal w 0 none = true := by
            unfold isIntVal
            rw [hp]
            simp [h1]
          simp [runOffsetChain, hv]

/-- C5 (amended): validation accepts exactly the requests satisfying the
stated rules; on any violation the response is the 400 envelope carrying
the collected error entries of every violated field — each violated
field contributes at least one entry and every entry belongs to a
violated field, though a single field may contribute several entries,
one per failed rule of its chain — and the decision logic is never
invoked (no engine call is issued). -/
theorem validation_accepts_iff_and_rejects {Hit Err : Type} (cfg : Config)
    (engine : Engine Hit Err JsNum) (b : RawBody) :
    ((validateBody b).1 = [] ↔ specAccepts b)
  ∧ ((validateBody b).1 ≠ [] →
       searchEndpoint cfg engine b = (SearchHttpOutcome.badRequest (validateBody b).1, []))
  ∧ (∀ fe ∈ (validateBody b).1,
       (fe.field = "query" ∧ (runQueryChain b.query).1 ≠ [])
     ∨ (fe.field = "slug" ∧ (runSlugChain b.slug).1 ≠ [])
     ∨ (fe.field = "limit" ∧ (runLimitChain b.limit).1 ≠ [])
     ∨ (fe.field = "offset" ∧ (runOffsetChain b.offset).1 ≠ []))
  ∧ ((runQueryChain b.query).1 ≠ [] → ∃ fe ∈ (validateBody b).1, fe.field = "query")
  ∧ ((runSlugChain b.slug).1 ≠ [] → ∃ fe ∈ (validateBody b).1, fe.field = "slug")
  ∧ ((runLimitChain b.limit).1 ≠ [] → ∃ fe ∈ (validateBody b).1, fe.field = "limit")
  ∧ ((runOffsetChain b.offset).1 ≠ [] → ∃ fe ∈ (validateBody b).1, fe.field = "offset") := by
  have hsplit : (validateBody b).1 =
      (runQueryChain b.query).1 ++ (runSlugChain b.slug).1 ++
        (runLimitChain b.limit).1 ++ (runOffsetChain b.offset).1 := rfl
  refine ⟨?_, ?_, ?_, ?_, ?_, ?_, ?_⟩
  · rw [hsplit]
    simp only [List.append_eq_nil]
    rw [runQueryChain_nil_iff, runSlugChain_nil_iff, runLimitChain_nil_iff,
      runOffsetChain_nil_iff]
    unfold specAccepts
    tauto
  · intro h
    unfold searchEndpoint
    rw [if_neg h]
  · intro fe hfe
    rw [hsplit] at hfe
    simp only [List.mem_append] at hfe
    rcases hfe with ((h | h) | h) | h
    · exact Or.inl ⟨runQueryChain_field b.query fe h, by
        intro hnil; rw [hnil] at h; cases h⟩
    · exact Or.inr (Or.inl ⟨runSlugChain_field b.slug fe h, by
        intro hnil; rw [hnil] at h; cases h⟩)
    · exact Or.inr (Or.inr (Or.inl ⟨runLimitChain_field b.limit fe h, by
        intro hnil; rw [hnil] at h; cases h⟩))
    · exact Or.inr (Or.inr (Or.inr ⟨runOffsetChain_field b.offset fe h, by
        intro hnil; rw [hnil] at h; cases h⟩))
  · intro h
    obtain ⟨fe, hfe⟩ := List.exists_mem_of_ne_nil _ h
    refine ⟨fe, ?_, runQueryChain_field b.query fe hfe⟩
    rw [hsplit]
    exact List.mem_append_left _ (List.mem_append_left _ (List.mem_append_left _ hfe))
  · intro h
    obtain ⟨fe, hfe⟩ := List.exists_mem_of_ne_nil _ h
    refine ⟨fe, ?_, runSlugChain_field b.slug fe hfe⟩
    rw [hsplit]
    exact List.mem_append_left _ (List.mem_append_left _ (List.mem_append_right _ hfe))
  · intro h
    obtain ⟨fe, hfe⟩ := List.exists_mem_of_ne_nil _ h
    refine ⟨fe, ?_, runLimitChain_field b.limit fe hfe⟩
    rw [hsplit]
    exact List.mem_append_left _ (List.mem_append_right _ hfe)
  · intro h
    obtain ⟨fe, hfe⟩ := List.exists_mem_of_ne_nil _ h
    refine ⟨fe, ?_, runOffsetChain_field b.offset fe hfe⟩
    rw [hsplit]
    exact List.mem_append_right _ hfe

/-- Counterexample for C5 as stated: a whitespace-only slug violates one
single field, yet the 400 error array carries two entries for it — one
from notEmpty and one from the character-class rule — so the response
does not have exactly one error entry per violated field. -/
theorem validation_two_errors_one_field_cex :
    (validateBody { query := some (JVal.jstr "arroz"), slug := some (JVal.jstr " "),
                    limit := none, offset := none }).1 =
      [{ field := "slug", message := "Slug is required and must be a non-empty string" },
       { field := "slug", message := "Slug must contain only lowercase letters, numbers, hyphens and underscores" }]
  ∧ ((validateBody { query := some (JVal.jstr "arroz"), slug := some (JVal.jstr " "),
                     limit := none, offset := none }).1.filter
        (fun fe => fe.field == "slug")).length = 2 := by
  refine ⟨by decide, by decide⟩

/-- A concrete engine over JsNum pagination values, for endpoint
witnesses. -/
def engNumOk : Engine Nat String JsNum := fun _ _ _ _ =>
  .ok { hits := [1], estimatedTotalHits := none, processingTimeMs := 2 }

/-- Witness for C5 (amended): the boundary values limit 1 and 100 and
offset 0 are accepted, limit 0 and 101 and offset -1 are rejected, and a
rejected request is answered 400 with no engine call issued. -/
theorem validation_boundary_witness :
    specAccepts { query := some (JVal.jstr "arroz"), slug := some (JVal.jstr "tienda"),
                  limit := some (JVal.jnum 1), offset := some (JVal.jnum 0) }
  ∧ specAccepts { query := some (JVal.jstr "arroz"), slug := some (JVal.jstr "tienda"),
                  limit := some (JVal.jnum 100), offset := none }
  ∧ (validateBody { query := some (JVal.jstr "arroz"), slug := some (JVal.jstr "tienda"),
                    limit := some (JVal.jnum 0), offset := none }).1 ≠ []
  ∧ (validateBody { query := some (JVal.jstr "arroz"), slug := some (JVal.jstr "tienda"),
                    limit := some (JVal.jnum 101), offset := none }).1 ≠ []
  ∧ (validateBody { query := some (JVal.jstr "arroz"), slug := some (JVal.jstr "tienda"),
                    limit := none, offset := some (JVal.jnum (-1)) }).1 ≠ []
  ∧ searchEndpoint defaultConfig engNumOk
      { query := some (JVal.jstr "arroz"), slug := some (JVal.jstr "tienda"),
        limit := some (JVal.jnum 0), offset := none } =
      (SearchHttpOutcome.badRequest
        (validateBody { query := some (JVal.jstr "arroz"), slug := some (JVal.jstr "tienda"),
                        limit := some (JVal.jnum 0), offset := none }).1, []) :=
  ⟨(validation_accepts_iff_and_rejects defaultConfig engNumOk _).1.mp (by decide),
   (validation_accepts_iff_and_rejects defaultConfig engNumOk _).1.mp (by decide),
   by decide, by decide, by decide,
   (validation_accepts_iff_and_rejects defaultConfig engNumOk _).2.1 (by decide)⟩

/-- The trim sanitizer rewrites the stored query to its trimmed form,
whatever else the chains decide. -/
theorem validateBody_query_sanitized (b : RawBody) (q0 : String)
    (hq : b.query = some (JVal.jstr q0)) :
    coerceStr (validateBody b).2.query = jsTrim q0 := by
  simp [validateBody, runQueryChain, hq, coerceStr]

/-- The trim sanitizer rewrites the stored slug to its trimmed form,
whatever else the chains decide. -/
theorem validateBody_slug_sanitized (b : RawBody) (s0 : String)
    (hs : b.slug = some (JVal.jstr s0)) :
    coerceStr (validateBody b).2.slug = jsTrim s0 := by
  simp [validateBody, runSlugChain, hs, coerceStr]

/-- C10: for every accepted request, the query forwarded to every engine
call and echoed in the result is the whitespace-trimmed form of the
submitted query field, and the index names the calls target are built
from the whitespace-trimmed form of the submitted slug — the sanitizer
rewrote the body before the controller read it. -/
theorem sanitized_trim_forwarding {Hit Err : Type} (cfg : Config)
    (engine : Engine Hit Err JsNum) (b : RawBody) (q0 s0 : String)
    (hq : b.query = some (JVal.jstr q0)) (hs : b.slug = some (JVal.jstr s0))
    (hacc : (validateBody b).1 = []) :
    (∀ c ∈ (searchEndpoint cfg engine b).2,
       c.query = jsTrim q0 ∧
       (c.index = cfg.localIndexPref ++ jsTrim s0 ∨ c.index = cfg.globalIndex))
  ∧ (∀ r, (searchEndpoint cfg engine b).1 = SearchHttpOutcome.ok r → r.query = jsTrim q0)
  ∧ ∃ lim off, (searchEndpoint cfg engine b).2 =
      (searchWithFallback cfg engine (jsTrim q0) (jsTrim s0) lim off).2 := by
  have hbq := validateBody_query_sanitized b q0 hq
  have hbs := validateBody_slug_sanitized b s0 hs
  set L : JsNum := (match (validateBody b).2.limit with
    | none => JsNum.int 20 | some w => jsParseInt w) with hL
  set O : JsNum := (match (validateBody b).2.offset with
    | none => JsNum.int 0 | some w => jsParseInt w) with hO
  have hmain : searchEndpoint cfg engine b =
      (match searchWithFallback cfg engine (jsTrim q0) (jsTrim s0) L O with
       | (.ok r, calls) => (.ok r, calls)
       | (.error e, calls) => (.serverError e, calls)) := by
    unfold searchEndpoint
    rw [if_pos hacc, hbq, hbs]
  rcases hsw : searchWithFallback cfg engine (jsTrim q0) (jsTrim s0) L O with ⟨res, calls⟩
  have hcalls : (searchWithFallback cfg engine (jsTrim q0) (jsTrim s0) L O).2 = calls := by
    rw [hsw]
  have he2 : (searchEndpoint cfg engine b).2 = calls := by
    rw [hmain, hsw]
    cases res <;> rfl
  refine ⟨?_, ?_, L, O, by rw [he2, hcalls]⟩
  · intro c hc
    rw [he2] at hc
    rcases searchWithFallback_calls cfg engine (jsTrim q0) (jsTrim s0) L O with hcl | hcl <;>
      rw [hcalls] at hcl <;> rw [hcl] at hc <;> simp only [List.mem_singleton,
        List.mem_cons, List.not_mem_nil, or_false] at hc
    · subst hc; exact ⟨rfl, Or.inl rfl⟩
    · rcases hc with hc | hc <;> subst hc
      · exact ⟨rfl, Or.inl rfl⟩
      · exact ⟨rfl, Or.inr rfl⟩
  · intro r hr
    rw [hmain, hsw] at hr
    cases res with
    | ok r0 =>
        simp only [SearchHttpOutcome.ok.injEq] at hr
        subst hr
        exact searchWithFallback_ok_query cfg engine (jsTrim q0) (jsTrim s0) L O r0
          (by rw [hsw])
    | error e => cases hr

/-- Witness for C10: a query submitted with surrounding whitespace is
forwarded and echoed trimmed. -/
theorem sanitized_trim_forwarding_witness :
    (∀ c ∈ (searchEndpoint defaultConfig engNumOk
        { query := some (JVal.jstr "  arroz "), slug := some (JVal.jstr "tienda"),
          limit := none, offset := none }).2,
       c.query = jsTrim "  arroz " ∧
       (c.index = defaultConfig.localIndexPref ++ jsTrim "tienda" ∨
        c.index = defaultConfig.globalIndex))
  ∧ (∀ r, (searchEndpoint defaultConfig engNumOk
        { query := some (JVal.jstr "  arroz "), slug := some (JVal.jstr "tienda"),
          limit := none, offset := none }).1 = SearchHttpOutcome.ok r →
       r.query = jsTrim "  arroz ")
  ∧ ∃ lim off, (searchEndpoint defaultConfig engNumOk
        { query := some (JVal.jstr "  arroz "), slug := some (JVal.jstr "tienda"),
          limit := none, offset := none }).2 =
      (searchWithFallback defaultConfig engNumOk (jsTrim "  arroz ") (jsTrim "tienda")
        lim off).2 :=
  sanitized_trim_forwarding defaultConfig engNumOk
    { query := some (JVal.jstr "  arroz "), slug := some (JVal.jstr "tienda"),
      limit := none, offset := none }
    "  arroz " "tienda" rfl rfl (by decide)

end SearchSvc
